import Mathlib

set_option maxRecDepth 100000
set_option maxHeartbeats 1000000

/-!
Verification of the voxel-scene loader (palette compilation, material
derivation, scene-graph name resolution and load pipeline) against a
shallow embedding of the Rust source.

Machine floats (`f32`) are embedded as exact rationals extended with a
NaN marker (`F32`): the source never relies on rounding, and the only
float behaviour the claims depend on is NaN propagation through
`partial_cmp`, which panics via `expect` in the source and is embedded
as `Except.error`.
-/

/-- Embedding of an `f32` value: either NaN or an exact rational. -/
inductive F32 where
  | nan : F32
  | val : ℚ → F32
deriving DecidableEq

def F32.isNan : F32 → Bool
  | .nan => true
  | .val _ => false

def F32.add : F32 → F32 → F32
  | .val a, .val b => .val (a + b)
  | _, _ => .nan

def F32.mul : F32 → F32 → F32
  | .val a, .val b => .val (a * b)
  | _, _ => .nan

def F32.sub : F32 → F32 → F32
  | .val a, .val b => .val (a - b)
  | _, _ => .nan

/-- Embedding of `f32` strict greater-than: comparisons involving NaN are false. -/
def F32.gt : F32 → F32 → Bool
  | .val a, .val b => b < a
  | _, _ => false

/-- Embedding of `f32` division; NaN propagates (division by zero is never reached
where this is used). -/
def F32.div : F32 → F32 → F32
  | .val a, .val b => .val (a / b)
  | _, _ => .nan

/-- Embedding of `bevy::render::color::Color` (RGBA components as exact
rationals in `[0, 1]`; byte quantisation is not modelled). -/
structure Color where
  r : ℚ
  g : ℚ
  b : ℚ
  a : ℚ
deriving DecidableEq

/-- Embedding of `Color::PINK` (bevy constant `rgb(1.0, 0.08, 0.58)`). -/
def Color.PINK : Color := ⟨1, Rat.divInt 8 100, Rat.divInt 58 100, 1⟩

/-- Embedding of `Color::WHITE`. -/
def Color.WHITE : Color := ⟨1, 1, 1, 1⟩

/-- Embedding of `Color::BLACK`. -/
def Color.BLACK : Color := ⟨0, 0, 0, 1⟩

/-- Embedding of `Color::rgba_u8`: builds a color from byte components. -/
def Color.rgba_u8 (r g b a : ℕ) : Color :=
  ⟨Rat.divInt r 255, Rat.divInt g 255, Rat.divInt b 255, Rat.divInt a 255⟩

/-- Embedding of `Color * f32` scaling followed by `as_rgba_f32` flattening, as used
for the emissive pixel buffer (r, g, b scaled, alpha kept). -/
def Color.scaleToList (c : Color) (s : F32) : List F32 :=
  [(F32.val c.r).mul s, (F32.val c.g).mul s, (F32.val c.b).mul s, F32.val c.a]

/-- Embedding of `src/model/palette.rs` — `VoxelElement`: one material slot of the
palette. Float channels are `F32`; `color` components are exact. -/
structure VoxelElement where
  color : Color
  emission : F32
  roughness : F32
  metalness : F32
  translucency : F32
  refraction_index : F32
deriving DecidableEq

/-- Embedding of `impl Default for VoxelElement` (palette.rs lines 38-49): the
"unassigned" pink element. -/
def VoxelElement.default : VoxelElement :=
  { color := Color.PINK
    emission := F32.val 0
    roughness := F32.val (Rat.divInt 5 10)
    metalness := F32.val 0
    translucency := F32.val 0
    refraction_index := F32.val (Rat.divInt 15 10) }

/-- Embedding of `src/model/palette.rs` — `VoxelPalette`. -/
structure VoxelPalette where
  elements : List VoxelElement
deriving DecidableEq

/-- Embedding of `Vec::resize_with(n, default)`: truncates when longer than `n`,
appends defaults when shorter. -/
def resizeWith (l : List VoxelElement) (n : ℕ) : List VoxelElement :=
  l.take n ++ List.replicate (n - l.length) VoxelElement.default

/-- Embedding of `VoxelPalette::new` (palette.rs lines 53-56). -/
def VoxelPalette.new (elements : List VoxelElement) : VoxelPalette :=
  ⟨resizeWith elements 256⟩

/-- Embedding of `VoxelPalette::new_from_colors` (palette.rs lines 59-69). -/
def VoxelPalette.new_from_colors (colors : List Color) : VoxelPalette :=
  VoxelPalette.new (colors.map (fun color => { VoxelElement.default with color := color }))

/-- Embedding of `dot_vox::Material` at the accessor level: the decoder
is an external collaborator, so each accessor (`emission()`,
`radiant_flux()`, ...) is a field holding its parsed optional value. -/
structure VoxMaterial where
  emission : Option F32
  radiant_flux : Option F32
  roughness : Option F32
  metalness : Option F32
  opacity : Option F32
  refractive_index : Option F32
  material_type : Option String
deriving DecidableEq

/-- A `dot_vox` material with no recognised properties. -/
def VoxMaterial.default : VoxMaterial :=
  { emission := none, radiant_flux := none, roughness := none
    metalness := none, opacity := none, refractive_index := none
    material_type := none }

/-- A palette color entry of the decoded file (`dot_vox` RGBA bytes). -/
structure VoxColor where
  r : ℕ
  g : ℕ
  b : ℕ
  a : ℕ
deriving DecidableEq

/-- One voxel of a decoded model: position plus palette index. -/
structure RawVoxel where
  x : ℕ
  y : ℕ
  z : ℕ
  i : ℕ
deriving DecidableEq

/-- One decoded model: declared size plus flat voxel array. -/
structure VoxModel where
  size_x : ℕ
  size_y : ℕ
  size_z : ℕ
  voxels : List RawVoxel
deriving DecidableEq

/-- A model reference attached to a `Shape` scene node. -/
structure ShapeModel where
  model_id : ℕ
deriving DecidableEq

/-- Embedding of `dot_vox::SceneNode` (children as indices into the
scene-node array, as in the decoder's representation; frames and layer
ids are dropped, the source ignores them in the code under study). -/
inductive SceneNode where
  | transform (attributes : List (String × String)) (child : ℕ)
  | group (attributes : List (String × String)) (children : List ℕ)
  | shape (attributes : List (String × String)) (models : List ShapeModel)
deriving DecidableEq

/-- A layer of the decoded file. -/
structure VoxLayer where
  name : Option String
  hidden : Bool
deriving DecidableEq

/-- Embedding of `dot_vox::DotVoxData`: the decoder's fully parsed
document. -/
structure DotVoxData where
  palette : List VoxColor
  materials : List VoxMaterial
  models : List VoxModel
  scenes : List SceneNode
  layers : List VoxLayer
deriving DecidableEq

/-- The element derived from one `(color, material)` pair of the zipped
palette/material tables (the closure body of `new_from_data`,
palette.rs lines 80-97). -/
def deriveElement (diffuse_roughness emission_strength : F32)
    (p : VoxColor × VoxMaterial) : VoxelElement :=
  { color := Color.rgba_u8 p.1.r p.1.g p.1.b p.1.a
    emission := ((p.2.emission.getD (F32.val 0)).mul
        ((p.2.radiant_flux.getD (F32.val 0)).add (F32.val 1))).mul emission_strength
    roughness := if p.2.material_type = some "_diffuse" then diffuse_roughness
        else p.2.roughness.getD (F32.val 0)
    metalness := p.2.metalness.getD (F32.val 0)
    translucency := p.2.opacity.getD (F32.val 0)
    refraction_index := if p.2.material_type = some "_glass" then
        (F32.val 1).add (p.2.refractive_index.getD (F32.val 0))
      else F32.val 0 }

/-- Embedding of `VoxelPalette::new_from_data` (palette.rs lines 71-100): zip the
256-entry color table with the material table and derive one element
per pair. -/
def VoxelPalette.new_from_data (data : DotVoxData)
    (diffuse_roughness emission_strength : F32) : VoxelPalette :=
  VoxelPalette.new
    ((data.palette.zip data.materials).map (deriveElement diffuse_roughness emission_strength))

/-- Embedding of `VoxelPalette::ior_for_voxel` (palette.rs lines 251-259), with the
`enumerate`/insert loop embedded as an index-carrying recursion; the
hash map is represented as an association list with distinct keys. -/
def iorAux (n : ℕ) : List VoxelElement → List (ℕ × F32)
  | [] => []
  | e :: es =>
    (if (e.translucency.gt (F32.val 0)) = true then [(n, e.refraction_index)] else [])
      ++ iorAux (n + 1) es

/-- The `ior_for_voxel` map of a palette. -/
def VoxelPalette.ior_for_voxel (p : VoxelPalette) : List (ℕ × F32) :=
  iorAux 0 p.elements

lemma lookup_iorAux_lt (l : List VoxelElement) :
    ∀ n i, i < n → List.lookup i (iorAux n l) = none := by
  induction l with
  | nil => intro n i _; simp [iorAux]
  | cons e es ih =>
    intro n i h
    have hne : (i == n) = false := by
      simp [Nat.ne_of_lt h]
    by_cases hg : (e.translucency.gt (F32.val 0)) = true
    · simp only [iorAux, hg, if_true, List.singleton_append, List.lookup, hne]
      exact ih (n + 1) i (by omega)
    · simp only [iorAux, hg, if_false, List.nil_append]
      exact ih (n + 1) i (by omega)

lemma lookup_iorAux (l : List VoxelElement) :
    ∀ n k, List.lookup (n + k) (iorAux n l) =
      (l.get? k).bind
        (fun e => if (e.translucency.gt (F32.val 0)) = true then some e.refraction_index else none) := by
  induction l with
  | nil => intro n k; simp [iorAux]
  | cons e es ih =>
    intro n k
    cases k with
    | zero =>
      by_cases hg : (e.translucency.gt (F32.val 0)) = true
      · simp [iorAux, hg, List.lookup]
      · simp [iorAux, hg, lookup_iorAux_lt es (n + 1) n (by omega)]
    | succ k =>
      have hne : ((n + (k + 1)) == n) = false := by
        simp only [beq_eq_false_iff_ne]
        omega
      by_cases hg : (e.translucency.gt (F32.val 0)) = true
      · simp only [iorAux, hg, if_true, List.singleton_append, List.lookup, hne]
        have := ih (n + 1) k
        rw [show n + (k + 1) = (n + 1) + k by omega]
        simpa using this
      · simp only [iorAux, hg, if_false, List.nil_append]
        have := ih (n + 1) k
        rw [show n + (k + 1) = (n + 1) + k by omega]
        simpa using this

/-- Characterisation of the `ior_for_voxel` map: looking up index `i`
returns the element's refraction index exactly when its translucency is
positive. -/
lemma lookup_ior_for_voxel (p : VoxelPalette) (i : ℕ) :
    List.lookup i p.ior_for_voxel =
      (p.elements.get? i).bind
        (fun e => if (e.translucency.gt (F32.val 0)) = true then some e.refraction_index else none) := by
  simpa using lookup_iorAux p.elements 0 i

lemma length_resizeWith (l : List VoxelElement) : (resizeWith l 256).length = 256 := by
  simp only [resizeWith, List.length_append, List.length_take, List.length_replicate]
  omega

lemma get?_resizeWith_lt (l : List VoxelElement) (i : ℕ)
    (h : i < l.length) (h2 : i < 256) : (resizeWith l 256).get? i = l.get? i := by
  rw [resizeWith, List.get?_eq_getElem?, List.get?_eq_getElem?,
    List.getElem?_append_left (by simp; omega)]
  exact List.getElem?_take_of_lt h2

lemma get?_resizeWith_ge (l : List VoxelElement) (i : ℕ)
    (h : l.length ≤ i) (h2 : i < 256) :
    (resizeWith l 256).get? i = some VoxelElement.default := by
  have hlen : (l.take 256).length = l.length := by simp; omega
  rw [resizeWith, List.get?_eq_getElem?, List.getElem?_append_right (by omega)]
  rw [hlen, List.getElem?_replicate]
  simp
  omega

lemma get?_zip {α β : Type} (l1 : List α) :
    ∀ (l2 : List β) (i : ℕ), (l1.zip l2).get? i =
      (l1.get? i).bind (fun a => (l2.get? i).map (fun b => (a, b))) := by
  induction l1 with
  | nil => intro l2 i; simp
  | cons a l1 ih =>
    intro l2 i
    cases l2 with
    | nil => simp
    | cons b l2 =>
      cases i with
      | zero => simp
      | succ i => simpa using ih l2 i

/-- Claim C3: for every input element list (length 0, under 256,
exactly 256, or over 256) the palette built by `VoxelPalette::new`
holds exactly 256 elements, the slots past the input filled with the
default element; `new_from_colors` and `new_from_data` therefore also
produce 256-element palettes. -/
theorem c3_palette_always_256 :
    (∀ elements : List VoxelElement,
      (VoxelPalette.new elements).elements.length = 256 ∧
      (∀ i : ℕ, elements.length ≤ i → i < 256 →
        (VoxelPalette.new elements).elements.get? i = some VoxelElement.default) ∧
      (∀ i : ℕ, i < elements.length → i < 256 →
        (VoxelPalette.new elements).elements.get? i = elements.get? i)) ∧
    (∀ colors : List Color, (VoxelPalette.new_from_colors colors).elements.length = 256) ∧
    (∀ (data : DotVoxData) (dr es : F32),
      (VoxelPalette.new_from_data data dr es).elements.length = 256) := by
  refine ⟨fun elements => ⟨length_resizeWith elements, ?_, ?_⟩, ?_, ?_⟩
  · intro i h h2
    exact get?_resizeWith_ge elements i h h2
  · intro i h h2
    exact get?_resizeWith_lt elements i h h2
  · intro colors
    exact length_resizeWith _
  · intro data dr es
    exact length_resizeWith _

theorem c3_palette_always_256_witness :
    (VoxelPalette.new []).elements.length = 256 ∧
    (VoxelPalette.new []).elements.get? 7 = some VoxelElement.default :=
  ⟨(c3_palette_always_256.1 []).1,
    (c3_palette_always_256.1 []).2.1 7 (by decide) (by decide)⟩

/-- Slot `i` of a `new_from_data` palette, when both tables reach `i`:
the element derived from the `i`-th color/material pair. -/
lemma new_from_data_get?_pair (data : DotVoxData) (dr es : F32) (i : ℕ)
    (c : VoxColor) (m : VoxMaterial)
    (hc : data.palette.get? i = some c) (hm : data.materials.get? i = some m)
    (h2 : i < 256) :
    (VoxelPalette.new_from_data data dr es).elements.get? i =
      some (deriveElement dr es (c, m)) := by
  have hzip : (data.palette.zip data.materials).get? i = some (c, m) := by
    rw [get?_zip data.palette data.materials i, hc, hm]
    rfl
  have hz : ((data.palette.zip data.materials).map (deriveElement dr es)).get? i =
      some (deriveElement dr es (c, m)) := by
    rw [List.get?_eq_getElem?, List.getElem?_map, ← List.get?_eq_getElem?, hzip]
    rfl
  have hltz : i < (data.palette.zip data.materials).length := by
    by_contra hcon
    push_neg at hcon
    rw [List.get?_eq_none.mpr hcon] at hzip
    cases hzip
  have hlt : i < ((data.palette.zip data.materials).map (deriveElement dr es)).length := by
    simpa using hltz
  rw [VoxelPalette.new_from_data, VoxelPalette.new,
    get?_resizeWith_lt _ i hlt h2]
  exact hz

/-- Slot `i` of a `new_from_data` palette past the zipped prefix: the
default element. -/
lemma new_from_data_get?_default (data : DotVoxData) (dr es : F32) (i : ℕ)
    (h : min data.palette.length data.materials.length ≤ i) (h2 : i < 256) :
    (VoxelPalette.new_from_data data dr es).elements.get? i =
      some VoxelElement.default := by
  have hlen : ((data.palette.zip data.materials).map (deriveElement dr es)).length ≤ i := by
    simpa [List.length_zip] using h
  rw [VoxelPalette.new_from_data, VoxelPalette.new,
    get?_resizeWith_ge _ i hlen h2]

/-- Claim C10: `new_from_data` derives one element per pair of the
zipped color/material lists, so the derived prefix has length
`min |palette| |materials|`; every palette slot at or past that length
becomes the default pink element (the file color at that slot is
discarded), and every slot before it is derived from the corresponding
pair. -/
theorem c10_new_from_data_zip :
    (∀ (data : DotVoxData),
      ((data.palette.zip data.materials).map (deriveElement (F32.val 0) (F32.val 0))).length =
        min data.palette.length data.materials.length) ∧
    (∀ (data : DotVoxData) (dr es : F32) (i : ℕ) (c : VoxColor) (m : VoxMaterial),
      data.palette.get? i = some c → data.materials.get? i = some m → i < 256 →
      (VoxelPalette.new_from_data data dr es).elements.get? i =
        some (deriveElement dr es (c, m))) ∧
    (∀ (data : DotVoxData) (dr es : F32) (i : ℕ),
      min data.palette.length data.materials.length ≤ i → i < 256 →
      (VoxelPalette.new_from_data data dr es).elements.get? i =
        some VoxelElement.default) := by
  refine ⟨?_, ?_, ?_⟩
  · intro data
    simp [List.length_zip]
  · intro data dr es i c m hc hm h2
    exact new_from_data_get?_pair data dr es i c m hc hm h2
  · intro data dr es i h h2
    exact new_from_data_get?_default data dr es i h h2

theorem c10_new_from_data_zip_witness :
    (VoxelPalette.new_from_data
        { palette := [⟨1, 2, 3, 4⟩], materials := [], models := [], scenes := [], layers := [] }
        (F32.val 0) (F32.val 0)).elements.get? 0 = some VoxelElement.default :=
  c10_new_from_data_zip.2.2
    { palette := [⟨1, 2, 3, 4⟩], materials := [], models := [], scenes := [], layers := [] }
    (F32.val 0) (F32.val 0) 0 (by decide) (by decide)

/-- Claim C9: in `new_from_data`, a material whose type tag is not
"_glass" yields `refraction_index` 0.0 (not the 1.5 neutral default);
if that material is additionally translucent (positive opacity), it
appears in the `ior_for_voxel` map with value 0.0. -/
theorem c9_non_glass_ior_zero
    (data : DotVoxData) (dr es : F32) (i : ℕ) (c : VoxColor) (m : VoxMaterial)
    (hc : data.palette.get? i = some c) (hm : data.materials.get? i = some m)
    (h2 : i < 256) (hglass : m.material_type ≠ some "_glass") :
    ∃ e : VoxelElement,
      (VoxelPalette.new_from_data data dr es).elements.get? i = some e ∧
      e.refraction_index = F32.val 0 ∧
      e.refraction_index ≠ VoxelElement.default.refraction_index ∧
      ((e.translucency.gt (F32.val 0)) = true →
        List.lookup i (VoxelPalette.new_from_data data dr es).ior_for_voxel =
          some (F32.val 0)) := by
  have hri : (deriveElement dr es (c, m)).refraction_index = F32.val 0 := by
    simp [deriveElement, hglass]
  refine ⟨deriveElement dr es (c, m),
    new_from_data_get?_pair data dr es i c m hc hm h2, hri, ?_, ?_⟩
  · rw [hri]
    decide
  · intro htr
    rw [lookup_ior_for_voxel, new_from_data_get?_pair data dr es i c m hc hm h2]
    simp [htr, hri]

/-- Concrete input for the C9 witness: one color/material pair whose
material is translucent but typed "_metal" rather than "_glass". -/
def c9data : DotVoxData :=
  { palette := [⟨10, 20, 30, 255⟩]
    materials := [{ VoxMaterial.default with
      opacity := some (F32.val (Rat.divInt 1 2))
      refractive_index := some (F32.val (Rat.divInt 3 10))
      material_type := some "_metal" }]
    models := [], scenes := [], layers := [] }

theorem c9_non_glass_ior_zero_witness :
    ∃ e : VoxelElement,
      (VoxelPalette.new_from_data c9data (F32.val 0) (F32.val 0)).elements.get? 0 = some e ∧
      e.refraction_index = F32.val 0 ∧
      e.refraction_index ≠ VoxelElement.default.refraction_index ∧
      ((e.translucency.gt (F32.val 0)) = true →
        List.lookup 0 (VoxelPalette.new_from_data c9data (F32.val 0) (F32.val 0)).ior_for_voxel =
          some (F32.val 0)) :=
  c9_non_glass_ior_zero c9data (F32.val 0) (F32.val 0) 0 ⟨10, 20, 30, 255⟩
    { VoxMaterial.default with
      opacity := some (F32.val (Rat.divInt 1 2))
      refractive_index := some (F32.val (Rat.divInt 3 10))
      material_type := some "_metal" }
    (by decide) (by decide) (by decide) (by decide)

/-- The glass material of the end-to-end scenario: displayed refraction
1.3 is stored by the editor as `_ri = 0.3` with type "_glass" (the
compiler adds the 1). -/
def scenarioGlassMaterial : VoxMaterial :=
  { VoxMaterial.default with
    opacity := some (F32.val (Rat.divInt 1 2))
    refractive_index := some (F32.val (Rat.divInt 3 10))
    material_type := some "_glass" }

/-- End-to-end scenario input: a material table whose entry 200 is
glass with opacity 0.5 and refraction 1.3; every other entry carries no
properties (opacity 0). -/
def scenarioData : DotVoxData :=
  { palette := List.replicate 256 ⟨255, 255, 255, 255⟩
    materials := List.replicate 200 VoxMaterial.default ++ [scenarioGlassMaterial]
      ++ List.replicate 55 VoxMaterial.default
    models := [], scenes := [], layers := [] }

/-- The palette compiled from the scenario file (default settings:
diffuse roughness 0.8, emission strength 2.0). -/
def scenarioPalette : VoxelPalette :=
  VoxelPalette.new_from_data scenarioData (F32.val (Rat.divInt 8 10)) (F32.val 2)

/-- Claim C1: the `ior_for_voxel` map is populated exactly for the
palette indices whose translucency is positive; in the end-to-end
scenario (entry 200 with opacity 0.5 and refraction 1.3) the map holds
key 200 with value 1.3 and no other key. -/
theorem c1_ior_for_voxel_map :
    (∀ (p : VoxelPalette) (i : ℕ) (e : VoxelElement),
      p.elements.get? i = some e →
      List.lookup i p.ior_for_voxel =
        (if (e.translucency.gt (F32.val 0)) = true then some e.refraction_index else none)) ∧
    List.lookup 200 scenarioPalette.ior_for_voxel = some (F32.val (Rat.divInt 13 10)) ∧
    (∀ i : ℕ, i < 256 → i ≠ 200 → List.lookup i scenarioPalette.ior_for_voxel = none) := by
  refine ⟨?_, ?_, ?_⟩
  · intro p i e he
    rw [lookup_ior_for_voxel, he]
    rfl
  · have hc : scenarioData.palette.get? 200 = some ⟨255, 255, 255, 255⟩ := by decide
    have hm : scenarioData.materials.get? 200 = some scenarioGlassMaterial := by decide
    unfold scenarioPalette
    rw [lookup_ior_for_voxel,
      new_from_data_get?_pair scenarioData _ _ 200 _ _ hc hm (by decide)]
    rw [Option.some_bind, if_pos (by decide)]
    have hval : (F32.val 1).add (F32.val (Rat.divInt 3 10)) = F32.val (Rat.divInt 13 10) := by
      show F32.val (1 + Rat.divInt 3 10) = F32.val (Rat.divInt 13 10)
      rw [Rat.divInt_eq_div, Rat.divInt_eq_div]
      norm_num
    simp only [deriveElement, scenarioGlassMaterial]
    simp only [Option.getD_some, reduceIte]
    exact congrArg some hval
  · decide

theorem c1_ior_for_voxel_map_witness :
    List.lookup 3 scenarioPalette.ior_for_voxel =
      (if ((VoxelElement.default.translucency.gt (F32.val 0))) = true
        then some VoxelElement.default.refraction_index else none) := by
  have h3 : scenarioPalette.elements.get? 3 = some (deriveElement
      (F32.val (Rat.divInt 8 10)) (F32.val 2) (⟨255, 255, 255, 255⟩, VoxMaterial.default)) := by
    exact new_from_data_get?_pair scenarioData _ _ 3 _ _ (by decide) (by decide) (by decide)
  have := c1_ior_for_voxel_map.1 scenarioPalette 3 _ h3
  rw [this]
  decide

/-- One fold step of Rust `Iterator::max_by(|a, b|
a.partial_cmp(b).expect("tried to compare NaN"))` (palette.rs lines
268-274): each comparison panics when either operand is NaN; on
non-NaN values the running maximum is kept. -/
def maxFold : F32 → List F32 → Except String F32
  | a, [] => Except.ok a
  | F32.val q, F32.val r :: xs => maxFold (F32.val (max q r)) xs
  | _, _ :: _ => Except.error "tried to compare NaN"

/-- Embedding of `VecComparable::max_element` (palette.rs lines 269-274): `max_by`
followed by `unwrap`, which panics on an empty vector. -/
def max_element : List F32 → Except String F32
  | [] => Except.error "called unwrap on a None value"
  | x :: xs => maxFold x xs

/-- Fold step of `min_by`, mirror of `maxFold`. -/
def minFold : F32 → List F32 → Except String F32
  | a, [] => Except.ok a
  | F32.val q, F32.val r :: xs => minFold (F32.val (min q r)) xs
  | _, _ :: _ => Except.error "tried to compare NaN"

/-- Embedding of `VecComparable::min_element` (palette.rs lines 276-281). -/
def min_element : List F32 → Except String F32
  | [] => Except.error "called unwrap on a None value"
  | x :: xs => minFold x xs

/-- A pixel buffer produced by `_create_material`: the asset label it
is registered under and the scalar values written into it (byte/u16
quantisation of the encodings is not modelled; the claims under study
concern which buffers exist and the scalar factors). -/
structure Image where
  label : String
  data : List F32
deriving DecidableEq

/-- Embedding of `bevy::pbr::StandardMaterial` restricted to the fields
the loader writes (all others keep bevy defaults and are never read by
the code under study). Texture handles are represented by the images
themselves. -/
structure StandardMaterial where
  base_color_texture : Option Image
  emissive : Color
  emissive_texture : Option Image
  perceptual_roughness : F32
  metallic : F32
  metallic_roughness_texture : Option Image
  specular_transmission : F32
  specular_transmission_texture : Option Image
  ior : F32
  thickness : F32
deriving DecidableEq

/-- Embedding of `StandardMaterial::default()` for the modelled fields (bevy 0.12
defaults). -/
def StandardMaterial.default : StandardMaterial :=
  { base_color_texture := none
    emissive := Color.BLACK
    emissive_texture := none
    perceptual_roughness := F32.val (Rat.divInt 5 10)
    metallic := F32.val 0
    metallic_roughness_texture := none
    specular_transmission := F32.val 0
    specular_transmission_texture := none
    ior := F32.val (Rat.divInt 15 10)
    thickness := F32.val 0 }

/-- Embedding of `VoxelPalette::_create_material` (palette.rs lines 113-249).
The `get_handle` callback only registers each image as a labeled asset
and returns its handle; images are embedded directly in the material.
Fallible because the `max_element`/`min_element` comparisons panic on
NaN (and `unwrap` panics on an empty palette). -/
def VoxelPalette._create_material (p : VoxelPalette) : Except String StandardMaterial := do
  let color_data : List F32 := p.elements.flatMap (fun e =>
    [F32.val e.color.r, F32.val e.color.g, F32.val e.color.b, F32.val e.color.a])
  let emission_data : List F32 := p.elements.map (fun e => e.emission)
  let roughness_data : List F32 := p.elements.map (fun e => e.roughness)
  let metalness_data : List F32 := p.elements.map (fun e => e.metalness)
  let translucency_data : List F32 := p.elements.map (fun e => e.translucency)
  let max_roughness ← max_element roughness_data
  let max_metalness ← max_element metalness_data
  let max_translucency ← max_element translucency_data
  let emission_max ← max_element emission_data
  let roughness_min ← min_element roughness_data
  let metalness_min ← min_element metalness_data
  let translucency_min ← min_element translucency_data
  let has_emission := emission_max.gt (F32.val 0)
  let has_roughness := (max_roughness.sub roughness_min).gt (F32.val (Rat.divInt 1 1000))
  let has_metalness := (max_metalness.sub metalness_min).gt (F32.val (Rat.divInt 1 1000))
  let has_roughness_metalness := has_roughness || has_metalness
  let has_translucency := (max_translucency.sub translucency_min).gt (F32.val (Rat.divInt 1 1000))
  let emissive_data : List F32 := (emission_data.zip (p.elements.map (fun e => e.color))).flatMap
    (fun pr => pr.2.scaleToList pr.1)
  let mr_data : List F32 := (roughness_data.zip metalness_data).flatMap
    (fun pr => [F32.val 0, pr.1, pr.2, F32.val 0])
  Except.ok
    { base_color_texture := some { label := "material_color", data := color_data }
      emissive := if has_emission then Color.WHITE else Color.BLACK
      emissive_texture := if has_emission then
          some { label := "material_emission", data := emissive_data }
        else none
      perceptual_roughness := if has_roughness_metalness then F32.val 1 else max_roughness
      metallic := if has_roughness_metalness then F32.val 1 else max_metalness
      metallic_roughness_texture := if has_roughness_metalness then
          some { label := "material_metallic_roughness", data := mr_data }
        else none
      specular_transmission := if has_translucency then F32.val 1 else max_translucency
      specular_transmission_texture := if has_translucency then
          some { label := "material_specular_transmission", data := translucency_data }
        else none
      ior := StandardMaterial.default.ior
      thickness := StandardMaterial.default.thickness }

/-- The rational carried by a non-NaN `F32` (0 for NaN; only applied to
non-NaN values). -/
def F32.toQ : F32 → ℚ
  | .nan => 0
  | .val q => q

/-- The maximum value of a list of non-NaN `F32`s (0 for the empty
list; only applied to non-empty lists). -/
def qmax : List F32 → ℚ
  | [] => 0
  | x :: xs => xs.foldl (fun acc y => max acc y.toQ) x.toQ

/-- Mirror of `qmax` for the minimum. -/
def qmin : List F32 → ℚ
  | [] => 0
  | x :: xs => xs.foldl (fun acc y => min acc y.toQ) x.toQ

lemma maxFold_ok (xs : List F32) : ∀ a : ℚ, (∀ x ∈ xs, x.isNan = false) →
    maxFold (F32.val a) xs =
      Except.ok (F32.val (xs.foldl (fun acc y => max acc y.toQ) a)) := by
  induction xs with
  | nil => intro a _; rfl
  | cons x xs ih =>
    intro a h
    cases x with
    | nan => exact absurd (h F32.nan (by simp)) (by simp [F32.isNan])
    | val r =>
      show maxFold (F32.val (max a r)) xs = _
      rw [ih (max a r) (fun y hy => h y (by simp [hy]))]
      rfl

lemma minFold_ok (xs : List F32) : ∀ a : ℚ, (∀ x ∈ xs, x.isNan = false) →
    minFold (F32.val a) xs =
      Except.ok (F32.val (xs.foldl (fun acc y => min acc y.toQ) a)) := by
  induction xs with
  | nil => intro a _; rfl
  | cons x xs ih =>
    intro a h
    cases x with
    | nan => exact absurd (h F32.nan (by simp)) (by simp [F32.isNan])
    | val r =>
      show minFold (F32.val (min a r)) xs = _
      rw [ih (min a r) (fun y hy => h y (by simp [hy]))]
      rfl

lemma max_element_ok (l : List F32) (hne : l ≠ [])
    (h : ∀ x ∈ l, x.isNan = false) :
    max_element l = Except.ok (F32.val (qmax l)) := by
  cases l with
  | nil => exact absurd rfl hne
  | cons x xs =>
    cases x with
    | nan => exact absurd (h F32.nan (by simp)) (by simp [F32.isNan])
    | val q =>
      show maxFold (F32.val q) xs = _
      rw [maxFold_ok xs q (fun y hy => h y (by simp [hy]))]
      rfl

lemma min_element_ok (l : List F32) (hne : l ≠ [])
    (h : ∀ x ∈ l, x.isNan = false) :
    min_element l = Except.ok (F32.val (qmin l)) := by
  cases l with
  | nil => exact absurd rfl hne
  | cons x xs =>
    cases x with
    | nan => exact absurd (h F32.nan (by simp)) (by simp [F32.isNan])
    | val q =>
      show minFold (F32.val q) xs = _
      rw [minFold_ok xs q (fun y hy => h y (by simp [hy]))]
      rfl

lemma maxFold_ok_noNan : ∀ (xs : List F32) (a v : F32), xs ≠ [] →
    maxFold a xs = Except.ok v →
    a.isNan = false ∧ ∀ x ∈ xs, x.isNan = false := by
  intro xs
  induction xs with
  | nil => intro a v hne _; exact absurd rfl hne
  | cons x xs ih =>
    intro a v _ hok
    cases a with
    | nan => cases x <;> exact absurd hok (by simp [maxFold])
    | val q =>
      cases x with
      | nan => exact absurd hok (by simp [maxFold])
      | val r =>
        rw [show maxFold (F32.val q) (F32.val r :: xs) =
          maxFold (F32.val (max q r)) xs from rfl] at hok
        cases xs with
        | nil => exact ⟨rfl, by simp [F32.isNan]⟩
        | cons y ys =>
          have := ih (F32.val (max q r)) v (by simp) hok
          refine ⟨rfl, ?_⟩
          intro z hz
          rcases List.mem_cons.mp hz with hz | hz
          · subst hz; rfl
          · exact this.2 z hz

/-- If `max_element` succeeds on a list of at least two values, the
list held no NaN (every element takes part in some comparison). -/
lemma max_element_ok_noNan (l : List F32) (v : F32) (hlen : 2 ≤ l.length)
    (h : max_element l = Except.ok v) : ∀ x ∈ l, x.isNan = false := by
  cases l with
  | nil => simp at hlen
  | cons x xs =>
    cases xs with
    | nil => simp at hlen
    | cons y ys =>
      have := maxFold_ok_noNan (y :: ys) x v (by simp) h
      intro z hz
      rcases List.mem_cons.mp hz with hz | hz
      · subst hz; exact this.1
      · exact this.2 z hz

lemma except_bind_ok {α β : Type} (a : α) (f : α → Except String β) :
    (Except.ok a >>= f) = f a := rfl

lemma except_bind_error {α β : Type} (msg : String) (f : α → Except String β) :
    ((Except.error msg : Except String α) >>= f) = Except.error msg := rfl

/-- The emission channel read by `_create_material`. -/
@[reducible] def emission_data (p : VoxelPalette) : List F32 := p.elements.map (fun e => e.emission)

/-- The roughness channel read by `_create_material`. -/
@[reducible] def roughness_data (p : VoxelPalette) : List F32 := p.elements.map (fun e => e.roughness)

/-- The metalness channel read by `_create_material`. -/
@[reducible] def metalness_data (p : VoxelPalette) : List F32 := p.elements.map (fun e => e.metalness)

/-- The translucency channel read by `_create_material`. -/
@[reducible] def translucency_data (p : VoxelPalette) : List F32 := p.elements.map (fun e => e.translucency)

/-- Full characterisation of `_create_material` on a non-empty palette
with no NaN in the compared channels: which pixel buffers are built and
what the scalar factors fold to when a buffer is skipped. -/
lemma create_material_spec (p : VoxelPalette) (hne : p.elements ≠ [])
    (hnn : ∀ e ∈ p.elements, e.emission.isNan = false ∧ e.roughness.isNan = false ∧
      e.metalness.isNan = false ∧ e.translucency.isNan = false) :
    ∃ m : StandardMaterial, p._create_material = Except.ok m ∧
      m.base_color_texture.isSome = true ∧
      (m.emissive_texture.isSome = true ↔ 0 < qmax (emission_data p)) ∧
      (m.metallic_roughness_texture.isSome = true ↔
        (Rat.divInt 1 1000 < qmax (roughness_data p) - qmin (roughness_data p) ∨
         Rat.divInt 1 1000 < qmax (metalness_data p) - qmin (metalness_data p))) ∧
      (m.specular_transmission_texture.isSome = true ↔
        Rat.divInt 1 1000 < qmax (translucency_data p) - qmin (translucency_data p)) ∧
      (m.emissive_texture = none → m.emissive = Color.BLACK) ∧
      (m.emissive_texture.isSome = true → m.emissive = Color.WHITE) ∧
      (m.metallic_roughness_texture = none →
        m.perceptual_roughness = F32.val (qmax (roughness_data p)) ∧
        m.metallic = F32.val (qmax (metalness_data p))) ∧
      (m.specular_transmission_texture = none →
        m.specular_transmission = F32.val (qmax (translucency_data p))) := by
  have hEne : emission_data p ≠ [] := by simpa [emission_data, List.map_eq_nil_iff] using hne
  have hRne : roughness_data p ≠ [] := by simpa [roughness_data, List.map_eq_nil_iff] using hne
  have hMne : metalness_data p ≠ [] := by simpa [metalness_data, List.map_eq_nil_iff] using hne
  have hTne : translucency_data p ≠ [] := by simpa [translucency_data, List.map_eq_nil_iff] using hne
  have hE : ∀ x ∈ emission_data p, x.isNan = false := by
    intro x hx
    obtain ⟨e, he, rfl⟩ := List.mem_map.mp hx
    exact (hnn e he).1
  have hR : ∀ x ∈ roughness_data p, x.isNan = false := by
    intro x hx
    obtain ⟨e, he, rfl⟩ := List.mem_map.mp hx
    exact (hnn e he).2.1
  have hM : ∀ x ∈ metalness_data p, x.isNan = false := by
    intro x hx
    obtain ⟨e, he, rfl⟩ := List.mem_map.mp hx
    exact (hnn e he).2.2.1
  have hT : ∀ x ∈ translucency_data p, x.isNan = false := by
    intro x hx
    obtain ⟨e, he, rfl⟩ := List.mem_map.mp hx
    exact (hnn e he).2.2.2
  unfold VoxelPalette._create_material
  simp only [max_element_ok (roughness_data p) hRne hR,
    max_element_ok (metalness_data p) hMne hM,
    max_element_ok (translucency_data p) hTne hT,
    max_element_ok (emission_data p) hEne hE,
    min_element_ok (roughness_data p) hRne hR,
    min_element_ok (metalness_data p) hMne hM,
    min_element_ok (translucency_data p) hTne hT, except_bind_ok]
  refine ⟨_, rfl, by simp, ?_, ?_, ?_, ?_, ?_, ?_, ?_⟩
  · by_cases hq : 0 < qmax (emission_data p) <;> simp [hq, F32.gt]
  · by_cases h1 : Rat.divInt 1 1000 < qmax (roughness_data p) - qmin (roughness_data p) <;>
      by_cases h2 : Rat.divInt 1 1000 < qmax (metalness_data p) - qmin (metalness_data p) <;>
      simp [h1, h2, F32.gt, F32.sub]
  · by_cases hq : Rat.divInt 1 1000 < qmax (translucency_data p) - qmin (translucency_data p) <;>
      simp [hq, F32.gt, F32.sub]
  · by_cases hq : 0 < qmax (emission_data p) <;> simp [hq, F32.gt]
  · by_cases hq : 0 < qmax (emission_data p) <;> simp [hq, F32.gt]
  · by_cases h1 : Rat.divInt 1 1000 < qmax (roughness_data p) - qmin (roughness_data p) <;>
      by_cases h2 : Rat.divInt 1 1000 < qmax (metalness_data p) - qmin (metalness_data p) <;>
      simp [h1, h2, F32.gt, F32.sub]
  · by_cases hq : Rat.divInt 1 1000 < qmax (translucency_data p) - qmin (translucency_data p) <;>
      simp [hq, F32.gt, F32.sub]

/-- Claim C4: if any compared channel (emission, roughness, metalness,
translucency) of the 256-element palette contains a NaN, the material
compiler aborts with the "tried to compare NaN" panic (embedded as
`Except.error`); on all-non-NaN input the assertion is unreachable and
compilation completes. -/
theorem c4_nan_fatal (p : VoxelPalette) (h256 : p.elements.length = 256) :
    ((∃ e ∈ p.elements, e.emission.isNan = true ∨ e.roughness.isNan = true ∨
        e.metalness.isNan = true ∨ e.translucency.isNan = true) →
      ∃ msg : String, p._create_material = Except.error msg) ∧
    ((∀ e ∈ p.elements, e.emission.isNan = false ∧ e.roughness.isNan = false ∧
        e.metalness.isNan = false ∧ e.translucency.isNan = false) →
      ∃ m : StandardMaterial, p._create_material = Except.ok m) := by
  constructor
  · rintro ⟨e, he, hch⟩
    cases hR : max_element (roughness_data p) with
    | error msg =>
      refine ⟨msg, ?_⟩
      unfold VoxelPalette._create_material
      simp only [hR, except_bind_error]
    | ok vR =>
      cases hM : max_element (metalness_data p) with
      | error msg =>
        refine ⟨msg, ?_⟩
        unfold VoxelPalette._create_material
        simp only [hR, hM, except_bind_ok, except_bind_error]
      | ok vM =>
        cases hT : max_element (translucency_data p) with
        | error msg =>
          refine ⟨msg, ?_⟩
          unfold VoxelPalette._create_material
          simp only [hR, hM, hT, except_bind_ok, except_bind_error]
        | ok vT =>
          cases hE : max_element (emission_data p) with
          | error msg =>
            refine ⟨msg, ?_⟩
            unfold VoxelPalette._create_material
            simp only [hR, hM, hT, hE, except_bind_ok, except_bind_error]
          | ok vE =>
            exfalso
            have hlenR : 2 ≤ (roughness_data p).length := by
              simp only [roughness_data, List.length_map, h256]
              omega
            have hlenM : 2 ≤ (metalness_data p).length := by
              simp only [metalness_data, List.length_map, h256]
              omega
            have hlenT : 2 ≤ (translucency_data p).length := by
              simp only [translucency_data, List.length_map, h256]
              omega
            have hlenE : 2 ≤ (emission_data p).length := by
              simp only [emission_data, List.length_map, h256]
              omega
            rcases hch with hc | hc | hc | hc
            · have := max_element_ok_noNan _ vE hlenE hE e.emission
                (List.mem_map.mpr ⟨e, he, rfl⟩)
              rw [hc] at this
              cases this
            · have := max_element_ok_noNan _ vR hlenR hR e.roughness
                (List.mem_map.mpr ⟨e, he, rfl⟩)
              rw [hc] at this
              cases this
            · have := max_element_ok_noNan _ vM hlenM hM e.metalness
                (List.mem_map.mpr ⟨e, he, rfl⟩)
              rw [hc] at this
              cases this
            · have := max_element_ok_noNan _ vT hlenT hT e.translucency
                (List.mem_map.mpr ⟨e, he, rfl⟩)
              rw [hc] at this
              cases this
  · intro hnn
    have hne : p.elements ≠ [] := by
      intro h0
      rw [h0] at h256
      cases h256
    obtain ⟨m, hm, -⟩ := create_material_spec p hne hnn
    exact ⟨m, hm⟩

/-- A palette whose roughness channel holds NaN in every slot. -/
def nanPalette : VoxelPalette :=
  ⟨List.replicate 256 { VoxelElement.default with roughness := F32.nan }⟩

theorem c4_nan_fatal_witness :
    (∃ msg : String, nanPalette._create_material = Except.error msg) ∧
    (∃ m : StandardMaterial, (VoxelPalette.new [])._create_material = Except.ok m) := by
  constructor
  · refine (c4_nan_fatal nanPalette (by simp [nanPalette])).1
      ⟨{ VoxelElement.default with roughness := F32.nan }, ?_, ?_⟩
    · simp [nanPalette, List.mem_replicate]
    · exact Or.inr (Or.inl rfl)
  · refine (c4_nan_fatal (VoxelPalette.new []) (length_resizeWith [])).2 ?_
    intro e he
    have : e = VoxelElement.default := by
      simpa [VoxelPalette.new, resizeWith, List.mem_replicate] using he
    subst this
    exact ⟨rfl, rfl, rfl, rfl⟩

lemma foldl_max_const (q : ℚ) : ∀ (k : ℕ),
    (List.replicate k (F32.val q)).foldl (fun acc y => max acc y.toQ) q = q := by
  intro k
  induction k with
  | zero => rfl
  | succ k ih =>
    show (List.replicate k (F32.val q)).foldl _ (max q (F32.val q).toQ) = q
    simpa [F32.toQ] using ih

lemma foldl_min_const (q : ℚ) : ∀ (k : ℕ),
    (List.replicate k (F32.val q)).foldl (fun acc y => min acc y.toQ) q = q := by
  intro k
  induction k with
  | zero => rfl
  | succ k ih =>
    show (List.replicate k (F32.val q)).foldl _ (min q (F32.val q).toQ) = q
    simpa [F32.toQ] using ih

lemma qmax_replicate (k : ℕ) (q : ℚ) :
    qmax (List.replicate (k + 1) (F32.val q)) = q := by
  show (List.replicate k (F32.val q)).foldl _ (F32.val q).toQ = q
  simpa [F32.toQ] using foldl_max_const q k

lemma qmin_replicate (k : ℕ) (q : ℚ) :
    qmin (List.replicate (k + 1) (F32.val q)) = q := by
  show (List.replicate k (F32.val q)).foldl _ (F32.val q).toQ = q
  simpa [F32.toQ] using foldl_min_const q k

/-- Claim C2 exactly as stated: each of the three optional buffers
(emissive, roughness/metalness, specular transmission) is built iff the
corresponding values vary by more than 0.001 (max minus min). -/
def c2ClaimStatement (p : VoxelPalette) : Prop :=
  ∀ m : StandardMaterial, p._create_material = Except.ok m →
    ((m.emissive_texture.isSome = true ↔
        Rat.divInt 1 1000 < qmax (emission_data p) - qmin (emission_data p)) ∧
     (m.metallic_roughness_texture.isSome = true ↔
        (Rat.divInt 1 1000 < qmax (roughness_data p) - qmin (roughness_data p) ∨
         Rat.divInt 1 1000 < qmax (metalness_data p) - qmin (metalness_data p))) ∧
     (m.specular_transmission_texture.isSome = true ↔
        Rat.divInt 1 1000 < qmax (translucency_data p) - qmin (translucency_data p)))

/-- A palette whose 256 entries all carry the same non-zero emission:
zero variation across entries, yet the source builds the emissive
buffer because its condition is `max > 0`, not a range test. -/
def c2Palette : VoxelPalette :=
  ⟨List.replicate 256 { VoxelElement.default with emission := F32.val 5 }⟩

theorem c2_counterexample : ¬ c2ClaimStatement c2Palette := by
  intro hclaim
  have hne : c2Palette.elements ≠ [] := by simp [c2Palette]
  have hnn : ∀ e ∈ c2Palette.elements, e.emission.isNan = false ∧
      e.roughness.isNan = false ∧ e.metalness.isNan = false ∧
      e.translucency.isNan = false := by
    intro e he
    have : e = { VoxelElement.default with emission := F32.val 5 } := by
      simpa [c2Palette, List.mem_replicate] using he
    subst this
    exact ⟨rfl, rfl, rfl, rfl⟩
  obtain ⟨m, hm, -, hemis, -, -, -, -, -, -⟩ := create_material_spec c2Palette hne hnn
  have hchan : emission_data c2Palette = List.replicate 256 (F32.val 5) := by
    simp [c2Palette, emission_data, List.map_replicate]
  have hq : qmax (emission_data c2Palette) = 5 := by
    rw [hchan]
    exact qmax_replicate 255 5
  have hqmin : qmin (emission_data c2Palette) = 5 := by
    rw [hchan]
    exact qmin_replicate 255 5
  have hsome : m.emissive_texture.isSome = true := hemis.mpr (by rw [hq]; norm_num)
  have hvar := (hclaim m hm).1.mp hsome
  rw [hq, hqmin, Rat.divInt_eq_div] at hvar
  norm_num at hvar

/-- Claim C2 (amended): the base-color buffer is always built; the
emissive buffer is built iff the maximum emission exceeds 0 (not a
range test); the combined roughness/metalness buffer iff either
channel's range exceeds 0.001, and the transmission buffer iff the
translucency range exceeds 0.001; when a buffer is skipped the scalar
factor is set to the channel's maximum (its uniform value up to the
epsilon) and the emissive color to black. -/
theorem c2_conditional_packing (p : VoxelPalette) (h256 : p.elements.length = 256)
    (hnn : ∀ e ∈ p.elements, e.emission.isNan = false ∧ e.roughness.isNan = false ∧
      e.metalness.isNan = false ∧ e.translucency.isNan = false) :
    ∃ m : StandardMaterial, p._create_material = Except.ok m ∧
      m.base_color_texture.isSome = true ∧
      (m.emissive_texture.isSome = true ↔ 0 < qmax (emission_data p)) ∧
      (m.metallic_roughness_texture.isSome = true ↔
        (Rat.divInt 1 1000 < qmax (roughness_data p) - qmin (roughness_data p) ∨
         Rat.divInt 1 1000 < qmax (metalness_data p) - qmin (metalness_data p))) ∧
      (m.specular_transmission_texture.isSome = true ↔
        Rat.divInt 1 1000 < qmax (translucency_data p) - qmin (translucency_data p)) ∧
      (m.emissive_texture = none → m.emissive = Color.BLACK) ∧
      (m.emissive_texture.isSome = true → m.emissive = Color.WHITE) ∧
      (m.metallic_roughness_texture = none →
        m.perceptual_roughness = F32.val (qmax (roughness_data p)) ∧
        m.metallic = F32.val (qmax (metalness_data p))) ∧
      (m.specular_transmission_texture = none →
        m.specular_transmission = F32.val (qmax (translucency_data p))) := by
  have hne : p.elements ≠ [] := by
    intro h0
    rw [h0] at h256
    cases h256
  exact create_material_spec p hne hnn

theorem c2_conditional_packing_witness :
    ∃ m : StandardMaterial, (VoxelPalette.new [])._create_material = Except.ok m ∧
      m.base_color_texture.isSome = true ∧
      (m.emissive_texture.isSome = true ↔ 0 < qmax (emission_data (VoxelPalette.new []))) ∧
      (m.metallic_roughness_texture.isSome = true ↔
        (Rat.divInt 1 1000 < qmax (roughness_data (VoxelPalette.new [])) -
            qmin (roughness_data (VoxelPalette.new [])) ∨
         Rat.divInt 1 1000 < qmax (metalness_data (VoxelPalette.new [])) -
            qmin (metalness_data (VoxelPalette.new [])))) ∧
      (m.specular_transmission_texture.isSome = true ↔
        Rat.divInt 1 1000 < qmax (translucency_data (VoxelPalette.new [])) -
          qmin (translucency_data (VoxelPalette.new []))) ∧
      (m.emissive_texture = none → m.emissive = Color.BLACK) ∧
      (m.emissive_texture.isSome = true → m.emissive = Color.WHITE) ∧
      (m.metallic_roughness_texture = none →
        m.perceptual_roughness = F32.val (qmax (roughness_data (VoxelPalette.new []))) ∧
        m.metallic = F32.val (qmax (metalness_data (VoxelPalette.new [])))) ∧
      (m.specular_transmission_texture = none →
        m.specular_transmission = F32.val (qmax (translucency_data (VoxelPalette.new [])))) := by
  refine c2_conditional_packing (VoxelPalette.new []) (length_resizeWith []) ?_
  intro e he
  have : e = VoxelElement.default := by
    simpa [VoxelPalette.new, resizeWith, List.mem_replicate] using he
  subst this
  exact ⟨rfl, rfl, rfl, rfl⟩

/-- Embedding of `loader.rs` — `NamedModel` (lines 199-202). -/
structure NamedModel where
  name : String
  id : ℕ
deriving DecidableEq

/-- Embedding of `loader.rs` — `parse_scene_graph` (lines 204-231). The recursion
follows child indices into the node array, so it is embedded with a
fuel parameter; fuel exhaustion and an out-of-range child index (an
index panic in the source) both yield `none`. -/
def parse_scene_graph : ℕ → List SceneNode → SceneNode → Option String → Option (List NamedModel)
  | 0, _, _, _ => none
  | fuel + 1, graph, node, node_name =>
    match node with
    | SceneNode.transform attributes child =>
      let handle : Option String :=
        match node_name, List.lookup "_name" attributes with
        | none, none => none
        | none, some name => some name
        | some name, none => some name
        | some a, some b => some (a ++ "-" ++ b)
      (graph.get? child).bind (fun c => parse_scene_graph fuel graph c handle)
    | SceneNode.group _ children =>
      (children.mapM (fun child =>
        (graph.get? child).bind
          (fun c => parse_scene_graph fuel graph c node_name))).map List.flatten
    | SceneNode.shape _ models =>
      some (models.map (fun model =>
        { name := match node_name with
            | some name => name
            | none => "model" ++ toString model.model_id
          id := model.model_id }))

/-- Claim C6: a Transform named `a` over a Group over a Shape resolves
the shape's model to exactly `a` (no duplication); a Transform named
`a` over a Transform named `b` over a Shape resolves to `a-b`; a Group
node passes the inherited name unchanged to every child. -/
theorem c6_scene_name_resolution :
    (∀ (a : String) (attrs1 attrs2 attrs3 : List (String × String)) (m : ℕ),
      parse_scene_graph 3
        [SceneNode.transform (("_name", a) :: attrs1) 1,
         SceneNode.group attrs2 [2],
         SceneNode.shape attrs3 [⟨m⟩]]
        (SceneNode.transform (("_name", a) :: attrs1) 1) none =
        some [{ name := a, id := m }]) ∧
    (∀ (a b : String) (m : ℕ),
      parse_scene_graph 3
        [SceneNode.transform [("_name", a)] 1,
         SceneNode.transform [("_name", b)] 2,
         SceneNode.shape [] [⟨m⟩]]
        (SceneNode.transform [("_name", a)] 1) none =
        some [{ name := a ++ "-" ++ b, id := m }]) ∧
    (∀ (fuel : ℕ) (graph : List SceneNode) (attrs : List (String × String))
        (children : List ℕ) (node_name : Option String),
      parse_scene_graph (fuel + 1) graph (SceneNode.group attrs children) node_name =
        (children.mapM (fun child =>
          (graph.get? child).bind
            (fun c => parse_scene_graph fuel graph c node_name))).map List.flatten) := by
  refine ⟨?_, ?_, ?_⟩
  · intro a attrs1 attrs2 attrs3 m
    rfl
  · intro a b m
    rfl
  · intro fuel graph attrs children node_name
    rfl

/-- The mesh asset produced by the legacy mesh loader. Modelled from
the spec: `load_from_model` / `mesh_model` (`src/voxel.rs`,
`src/mesh.rs`) are not under `src/`; a mesh is abstracted as a token
recording the model it was meshed from, which is all the claims under
study observe. -/
structure Mesh where
  modelId : ℕ
deriving DecidableEq

/-- Embedding of `loader.rs` — `VoxLoader::process_vox_file` (lines 69-196),
restricted to the steps that decide the returned value: the
roughness/metalness `max_by`/`min_by` comparisons (lines 127-134, which
panic on NaN or an empty material table), the scene-graph walk (line
183, which panics when the scene array is empty), the named-model loop
and the final "No models found in vox file" error (lines 184-195). The
pixel-buffer and material asset registrations (lines 80-181) produce
labeled assets only and cannot fail, so they are omitted. -/
def VoxLoader.process_vox_file (file : DotVoxData) : Except String Mesh := do
  let roughness := file.materials.map (fun m => m.roughness.getD (F32.val 0))
  let _max_roughness ← max_element roughness
  let _min_roughness ← min_element roughness
  let metalness := file.materials.map (fun m => m.metalness.getD (F32.val 0))
  let _max_metalness ← max_element metalness
  let _min_metalness ← min_element metalness
  let root ← match file.scenes.get? 0 with
    | some n => Except.ok n
    | none => Except.error "index out of bounds"
  let named_models ← match parse_scene_graph (file.scenes.length + 1) file.scenes root none with
    | some l => Except.ok l
    | none => Except.error "index out of bounds"
  let default_mesh := named_models.foldl
    (fun acc nm =>
      match file.models.get? nm.id with
      | none => acc
      | some _ => if nm.id = 0 then some ({ modelId := nm.id } : Mesh) else acc)
    (none : Option Mesh)
  match default_mesh with
  | some mesh => Except.ok mesh
  | none => Except.error "No models found in vox file"

/-- A layer copied into the scene asset (`load/mod.rs` lines 124-131). -/
structure LayerInfo where
  name : Option String
  is_hidden : Bool
deriving DecidableEq

/-- Modelled from the spec: `load/parse_model.rs` is not under `src/`.
Section 4.2: the grid loader outputs a `ModelData` whose extent equals
the model's declared size, together with the `mesh_outer_faces` flag
that drives the face-visibility rule. -/
structure ModelData where
  size_x : ℕ
  size_y : ℕ
  size_z : ℕ
  voxels : List RawVoxel
  mesh_outer_faces : Bool
deriving DecidableEq

/-- Modelled from the spec: `load_from_model` (`load/parse_model.rs`,
not under `src/`) turns one decoded model into its `ModelData`. -/
def load_from_model (model : VoxModel) (mesh_outer_faces : Bool) : ModelData :=
  { size_x := model.size_x, size_y := model.size_y, size_z := model.size_z
    voxels := model.voxels, mesh_outer_faces := mesh_outer_faces }

/-- The voxel stored at a coordinate (0 = empty/air when absent). -/
def voxelAt (voxels : List RawVoxel) (x y z : ℕ) : ℕ :=
  match voxels.find? (fun v => v.x == x && v.y == y && v.z == z) with
  | some v => v.i
  | none => 0

/-- Modelled from the spec (section 4.2): one face direction is open if
the neighbouring cell is empty, or lies outside the model bounds and
`mesh_outer_faces` is set. -/
def neighborOpen (d : ModelData) (nx ny nz : ℤ) : Bool :=
  if nx < 0 ∨ ny < 0 ∨ nz < 0 ∨ (d.size_x : ℤ) ≤ nx ∨ (d.size_y : ℤ) ≤ ny ∨ (d.size_z : ℤ) ≤ nz
  then d.mesh_outer_faces
  else voxelAt d.voxels nx.toNat ny.toNat nz.toNat == 0

/-- Modelled from the spec (section 4.2): a voxel is visible when at
least one of its six axis-aligned faces is open. -/
def voxelVisible (d : ModelData) (v : RawVoxel) : Bool :=
  neighborOpen d ((v.x : ℤ) + 1) (v.y : ℤ) (v.z : ℤ) ||
  neighborOpen d ((v.x : ℤ) - 1) (v.y : ℤ) (v.z : ℤ) ||
  neighborOpen d (v.x : ℤ) ((v.y : ℤ) + 1) (v.z : ℤ) ||
  neighborOpen d (v.x : ℤ) ((v.y : ℤ) - 1) (v.z : ℤ) ||
  neighborOpen d (v.x : ℤ) (v.y : ℤ) ((v.z : ℤ) + 1) ||
  neighborOpen d (v.x : ℤ) (v.y : ℤ) ((v.z : ℤ) - 1)

/-- Modelled from the spec: `VoxelData::visible_voxels`
(`load/parse_model.rs`, not under `src/`). Sections 4.2-4.3: collects
the solid voxels with at least one visible face and derives the
per-model IOR by palette lookup over those visible voxels — `some`
(here: their average) exactly when a visible voxel is translucent,
`none` otherwise. -/
def model_ior (iors : List F32) : Option F32 :=
  if iors.isEmpty then none
  else some ((iors.foldl F32.add (F32.val 0)).div (F32.val (iors.length : ℚ)))

/-- Modelled from the spec: `VoxelData::visible_voxels`
(`load/parse_model.rs`, not under `src/`), continued: the visible solid
voxels paired with the per-model IOR. -/
def visible_voxels (d : ModelData) (ior_map : List (ℕ × F32)) :
    List RawVoxel × Option F32 :=
  let vis := d.voxels.filter (fun v => v.i != 0 && voxelVisible d v)
  (vis, model_ior (vis.filterMap (fun v => List.lookup v.i ior_map)))

/-- The mesh built by the scene loader's mesher. Modelled from the
spec: `model/mesh.rs` is not under `src/`; the mesh is abstracted as
the visible-voxel list it was built from. -/
structure VoxMesh where
  visible : List RawVoxel
deriving DecidableEq

/-- Modelled from the spec: `mesh_model` (`model/mesh.rs`, not under
`src/`). -/
def mesh_model (visible_list : List RawVoxel) (_d : ModelData) : VoxMesh :=
  ⟨visible_list⟩

/-- Modelled from the spec: the name walk of `load/parse_scene.rs`
(`parse_xform_node` + `find_model_names`, not under `src/`). Section
4.4: a Transform combines its declared name with the inherited one
(both present ⇒ `parent-local`), a Group passes the inherited name
through, a Shape records the mapping model index → inherited name (the
`model-<index>` fallback is applied at the use site, `load/mod.rs` line
143). Traversal order is preserved so a later occurrence of the same
model index overwrites an earlier one. -/
def find_model_names : ℕ → List SceneNode → SceneNode → Option String → List (ℕ × String)
  | 0, _, _, _ => []
  | fuel + 1, graph, node, inherited =>
    match node with
    | SceneNode.transform attrs child =>
      let combined : Option String :=
        match inherited, List.lookup "_name" attrs with
        | none, none => none
        | none, some n => some n
        | some n, none => some n
        | some a, some b => some (a ++ "-" ++ b)
      match graph.get? child with
      | some c => find_model_names fuel graph c combined
      | none => []
    | SceneNode.group _ children =>
      children.flatMap (fun child =>
        match graph.get? child with
        | some c => find_model_names fuel graph c inherited
        | none => [])
    | SceneNode.shape _ models =>
      models.filterMap (fun m => inherited.map (fun n => (m.model_id, n)))

/-- The material handle held by a loaded model: either the shared
zero-transmission variant or a per-model clone of the translucent
variant. -/
inductive ModelMaterial where
  | sharedSolid : ModelMaterial
  | translucentClone (m : StandardMaterial) : ModelMaterial
deriving DecidableEq

/-- One `VoxelModel` sub-asset produced per decoded model
(`load/mod.rs` lines 138-168). -/
structure ModelAsset where
  name : String
  mesh : VoxMesh
  data : ModelData
  material : ModelMaterial
deriving DecidableEq

/-- Embedding of `load/mod.rs` — `VoxLoaderSettings` (lines 27-49). -/
structure VoxLoaderSettings where
  mesh_outer_faces : Bool
  emission_strength : F32
  uses_srgb : Bool
  diffuse_roughness : F32
deriving DecidableEq

/-- Embedding of `Default for VoxLoaderSettings` (lines 40-49). -/
def VoxLoaderSettings.default : VoxLoaderSettings :=
  { mesh_outer_faces := true, emission_strength := F32.val 2
    uses_srgb := true, diffuse_roughness := F32.val (Rat.divInt 8 10) }

/-- The scene asset returned by the scene loader, together with the two
material variants it registered (`load/mod.rs` lines 96-182; the
labeled sub-scene assets share the same model list and are not
duplicated here). -/
structure LoadResult where
  translucentMaterial : StandardMaterial
  solidMaterial : StandardMaterial
  models : List ModelAsset
  layers : List LayerInfo
deriving DecidableEq

/-- The per-model loop body of `VoxSceneLoader::process_vox_file`
(`load/mod.rs` lines 142-167): name resolution with the
`model-<index>` fallback, grid load, visible-voxel/IOR computation,
meshing, and the choice between the shared zero-transmission material
and a translucent clone with the model's IOR and a thickness equal to
the least extent. -/
def modelAsset (settings : VoxLoaderSettings) (ior_map : List (ℕ × F32))
    (translucent_material : StandardMaterial) (names : List (ℕ × String))
    (pr : ℕ × VoxModel) : ModelAsset :=
  let name := match List.lookup pr.1 names.reverse with
    | some n => n
    | none => "model-" ++ toString pr.1
  let data := load_from_model pr.2 settings.mesh_outer_faces
  let vis_ior := visible_voxels data ior_map
  { name := name
    mesh := mesh_model vis_ior.1 data
    data := data
    material := match vis_ior.2 with
      | some ior => ModelMaterial.translucentClone
          { translucent_material with
            ior := ior
            thickness := F32.val ((min pr.2.size_x (min pr.2.size_y pr.2.size_z) : ℕ) : ℚ) }
      | none => ModelMaterial.sharedSolid }

/-- Embedding of `load/mod.rs` — `VoxSceneLoader::process_vox_file` (lines 84-182):
palette compilation, the two material variants, the scene-graph name
walk and the per-model assets. Decoding happens before this function;
the extra labeled sub-assets (per-name sub-scenes, the no-emission
variant of the newer palette) add assets without affecting the value
returned. -/
def VoxSceneLoader.process_vox_file (file : DotVoxData)
    (settings : VoxLoaderSettings) : Except String LoadResult := do
  let palette := VoxelPalette.new_from_data file settings.diffuse_roughness
    settings.emission_strength
  let translucent_material ← palette._create_material
  let ior_map := palette.ior_for_voxel
  let solid_material : StandardMaterial :=
    { translucent_material with
      specular_transmission_texture := none
      specular_transmission := F32.val 0 }
  let root ← match file.scenes.get? 0 with
    | some n => Except.ok n
    | none => Except.error "index out of bounds"
  let names := find_model_names (file.scenes.length + 1) file.scenes root none
  let layers : List LayerInfo := file.layers.map (fun layer =>
    { name := layer.name, is_hidden := layer.hidden })
  let models : List ModelAsset :=
    file.models.enum.map (modelAsset settings ior_map translucent_material names)
  Except.ok
    { translucentMaterial := translucent_material
      solidMaterial := solid_material
      models := models
      layers := layers }

lemma process_ok (file : DotVoxData) (settings : VoxLoaderSettings)
    (tm : StandardMaterial) (root : SceneNode)
    (htm : (VoxelPalette.new_from_data file settings.diffuse_roughness
      settings.emission_strength)._create_material = Except.ok tm)
    (hroot : file.scenes.get? 0 = some root) :
    VoxSceneLoader.process_vox_file file settings = Except.ok
      { translucentMaterial := tm
        solidMaterial := { tm with
          specular_transmission_texture := none
          specular_transmission := F32.val 0 }
        models := file.models.enum.map (modelAsset settings
          (VoxelPalette.new_from_data file settings.diffuse_roughness
            settings.emission_strength).ior_for_voxel
          tm (find_model_names (file.scenes.length + 1) file.scenes root none))
        layers := file.layers.map (fun layer =>
          { name := layer.name, is_hidden := layer.hidden }) } := by
  unfold VoxSceneLoader.process_vox_file
  simp only [htm, hroot, except_bind_ok]

lemma process_ok_inv (file : DotVoxData) (settings : VoxLoaderSettings) (res : LoadResult)
    (hok : VoxSceneLoader.process_vox_file file settings = Except.ok res) :
    ∃ (tm : StandardMaterial) (root : SceneNode),
      (VoxelPalette.new_from_data file settings.diffuse_roughness
        settings.emission_strength)._create_material = Except.ok tm ∧
      file.scenes.get? 0 = some root ∧
      res = { translucentMaterial := tm
              solidMaterial := { tm with
                specular_transmission_texture := none
                specular_transmission := F32.val 0 }
              models := file.models.enum.map (modelAsset settings
                (VoxelPalette.new_from_data file settings.diffuse_roughness
                  settings.emission_strength).ior_for_voxel
                tm (find_model_names (file.scenes.length + 1) file.scenes root none))
              layers := file.layers.map (fun layer =>
                { name := layer.name, is_hidden := layer.hidden }) } := by
  cases htm : (VoxelPalette.new_from_data file settings.diffuse_roughness
      settings.emission_strength)._create_material with
  | error msg =>
    unfold VoxSceneLoader.process_vox_file at hok
    simp only [htm, except_bind_error] at hok
    exact Except.noConfusion hok
  | ok tm =>
    cases hroot : file.scenes.get? 0 with
    | none =>
      unfold VoxSceneLoader.process_vox_file at hok
      simp only [htm, hroot, except_bind_ok, except_bind_error] at hok
      exact Except.noConfusion hok
    | some root =>
      refine ⟨tm, root, rfl, rfl, ?_⟩
      have h := process_ok file settings tm root htm hroot
      rw [h] at hok
      simpa using hok.symm

/-- Claim C8: the two material variants produced per load agree on
every field except that the solid variant has specular transmission
forced to 0 and its transmission texture removed. -/
theorem c8_two_material_variants (file : DotVoxData) (settings : VoxLoaderSettings)
    (res : LoadResult)
    (hok : VoxSceneLoader.process_vox_file file settings = Except.ok res)
    (htr : ∃ e ∈ (VoxelPalette.new_from_data file settings.diffuse_roughness
      settings.emission_strength).elements, (e.translucency.gt (F32.val 0)) = true) :
    res.solidMaterial.base_color_texture = res.translucentMaterial.base_color_texture ∧
    res.solidMaterial.emissive = res.translucentMaterial.emissive ∧
    res.solidMaterial.emissive_texture = res.translucentMaterial.emissive_texture ∧
    res.solidMaterial.perceptual_roughness = res.translucentMaterial.perceptual_roughness ∧
    res.solidMaterial.metallic = res.translucentMaterial.metallic ∧
    res.solidMaterial.metallic_roughness_texture =
      res.translucentMaterial.metallic_roughness_texture ∧
    res.solidMaterial.ior = res.translucentMaterial.ior ∧
    res.solidMaterial.thickness = res.translucentMaterial.thickness ∧
    res.solidMaterial.specular_transmission = F32.val 0 ∧
    res.solidMaterial.specular_transmission_texture = none := by
  obtain ⟨tm, root, htm, hroot, hres⟩ := process_ok_inv file settings res hok
  subst hres
  exact ⟨rfl, rfl, rfl, rfl, rfl, rfl, rfl, rfl, rfl, rfl⟩

/-- Concrete input for the C8 witness: entry 1 is translucent, no
models. -/
def c8File : DotVoxData :=
  { palette := List.replicate 256 ⟨200, 200, 200, 255⟩
    materials := VoxMaterial.default ::
      { VoxMaterial.default with opacity := some (F32.val (Rat.divInt 1 2)) } ::
      List.replicate 254 VoxMaterial.default
    models := []
    scenes := [SceneNode.transform [] 1, SceneNode.shape [] []]
    layers := [] }

theorem c8_two_material_variants_witness :
    ∃ res : LoadResult,
      VoxSceneLoader.process_vox_file c8File VoxLoaderSettings.default = Except.ok res ∧
      res.solidMaterial.specular_transmission = F32.val 0 ∧
      res.solidMaterial.specular_transmission_texture = none ∧
      res.solidMaterial.base_color_texture = res.translucentMaterial.base_color_texture ∧
      res.solidMaterial.emissive_texture = res.translucentMaterial.emissive_texture := by
  have hne : (VoxelPalette.new_from_data c8File VoxLoaderSettings.default.diffuse_roughness
      VoxLoaderSettings.default.emission_strength).elements ≠ [] := by decide
  have hnn : ∀ e ∈ (VoxelPalette.new_from_data c8File VoxLoaderSettings.default.diffuse_roughness
      VoxLoaderSettings.default.emission_strength).elements,
      e.emission.isNan = false ∧ e.roughness.isNan = false ∧
      e.metalness.isNan = false ∧ e.translucency.isNan = false := by decide
  obtain ⟨tm, htm, -⟩ := create_material_spec _ hne hnn
  have hok := process_ok c8File VoxLoaderSettings.default tm
    (SceneNode.transform [] 1) htm rfl
  have hc := c8_two_material_variants c8File VoxLoaderSettings.default _ hok (by decide)
  exact ⟨_, hok, hc.2.2.2.2.2.2.2.2.1, hc.2.2.2.2.2.2.2.2.2, hc.1, hc.2.2.1⟩

lemma get?_enumFrom {α : Type} (l : List α) :
    ∀ (n i : ℕ), (List.enumFrom n l).get? i = (l.get? i).map (fun a => (n + i, a)) := by
  induction l with
  | nil => intro n i; simp
  | cons a l ih =>
    intro n i
    cases i with
    | zero => simp
    | succ i =>
      show (List.enumFrom (n + 1) l).get? i = _
      rw [ih (n + 1) i]
      show (l.get? i).map _ = (l.get? i).map _
      cases l.get? i with
      | none => rfl
      | some b =>
        show some (n + 1 + i, b) = some (n + (i + 1), b)
        rw [show n + 1 + i = n + (i + 1) by omega]

lemma get?_enum {α : Type} (l : List α) (i : ℕ) :
    l.enum.get? i = (l.get? i).map (fun a => (i, a)) := by
  have := get?_enumFrom l 0 i
  simpa using this

lemma model_ior_isSome (iors : List F32) :
    (model_ior iors).isSome = true ↔ iors ≠ [] := by
  unfold model_ior
  by_cases h : iors.isEmpty = true
  · rw [if_pos h]
    simp [List.isEmpty_iff.mp h]
  · rw [if_neg h]
    simp only [Option.isSome_some, true_iff]
    intro h0
    exact h (by simp [h0])

/-- Membership in the `ior_for_voxel` map as a statement about the
element's translucency. -/
lemma lookup_ior_isSome (p : VoxelPalette) (i : ℕ) :
    (List.lookup i p.ior_for_voxel).isSome = true ↔
      ∃ e, p.elements.get? i = some e ∧ (e.translucency.gt (F32.val 0)) = true := by
  rw [lookup_ior_for_voxel]
  cases hg : p.elements.get? i with
  | none => simp
  | some e =>
    by_cases ht : (e.translucency.gt (F32.val 0)) = true <;> simp [ht]

lemma visible_voxels_ior_isSome (d : ModelData) (ior_map : List (ℕ × F32)) :
    ((visible_voxels d ior_map).2).isSome = true ↔
      ∃ v ∈ (visible_voxels d ior_map).1, (List.lookup v.i ior_map).isSome = true := by
  show (model_ior ((d.voxels.filter (fun v => v.i != 0 && voxelVisible d v)).filterMap
      (fun v => List.lookup v.i ior_map))).isSome = true ↔ _
  rw [model_ior_isSome, Ne, List.filterMap_eq_nil_iff]
  push_neg
  constructor
  · rintro ⟨v, hv, hne⟩
    exact ⟨v, hv, Option.isSome_iff_ne_none.mpr hne⟩
  · rintro ⟨v, hv, hs⟩
    exact ⟨v, hv, Option.isSome_iff_ne_none.mp hs⟩

/-- Claim C5 (amended): a model is assigned the translucent material
variant iff it contains at least one VISIBLE voxel whose palette index
has translucency greater than 0; invisible translucent voxels do not
participate (the classification is computed over the visible-voxel
list). -/
theorem c5_translucent_selection (file : DotVoxData) (settings : VoxLoaderSettings)
    (res : LoadResult) (i : ℕ) (asset : ModelAsset) (model : VoxModel)
    (hok : VoxSceneLoader.process_vox_file file settings = Except.ok res)
    (hasset : res.models.get? i = some asset)
    (hmodel : file.models.get? i = some model) :
    (∃ m' : StandardMaterial, asset.material = ModelMaterial.translucentClone m') ↔
      ∃ v ∈ (visible_voxels (load_from_model model settings.mesh_outer_faces)
          (VoxelPalette.new_from_data file settings.diffuse_roughness
            settings.emission_strength).ior_for_voxel).1,
        ∃ e : VoxelElement,
          (VoxelPalette.new_from_data file settings.diffuse_roughness
            settings.emission_strength).elements.get? v.i = some e ∧
          (e.translucency.gt (F32.val 0)) = true := by
  obtain ⟨tm, root, htm, hroot, hres⟩ := process_ok_inv file settings res hok
  subst hres
  have hasset2 : (file.models.enum.map (modelAsset settings
      (VoxelPalette.new_from_data file settings.diffuse_roughness
        settings.emission_strength).ior_for_voxel
      tm (find_model_names (file.scenes.length + 1) file.scenes root none))).get? i =
      some asset := hasset
  rw [List.get?_eq_getElem?, List.getElem?_map, ← List.get?_eq_getElem?, get?_enum,
    hmodel] at hasset2
  have ha : modelAsset settings
      (VoxelPalette.new_from_data file settings.diffuse_roughness
        settings.emission_strength).ior_for_voxel
      tm (find_model_names (file.scenes.length + 1) file.scenes root none)
      (i, model) = asset := Option.some.inj hasset2
  subst ha
  have hmat : (∃ m' : StandardMaterial,
      (modelAsset settings
        (VoxelPalette.new_from_data file settings.diffuse_roughness
          settings.emission_strength).ior_for_voxel
        tm (find_model_names (file.scenes.length + 1) file.scenes root none)
        (i, model)).material = ModelMaterial.translucentClone m') ↔
      ((visible_voxels (load_from_model model settings.mesh_outer_faces)
        (VoxelPalette.new_from_data file settings.diffuse_roughness
          settings.emission_strength).ior_for_voxel).2).isSome = true := by
    cases hvv : (visible_voxels (load_from_model model settings.mesh_outer_faces)
        (VoxelPalette.new_from_data file settings.diffuse_roughness
          settings.emission_strength).ior_for_voxel).2 with
    | none =>
      have hm : (modelAsset settings
          (VoxelPalette.new_from_data file settings.diffuse_roughness
            settings.emission_strength).ior_for_voxel
          tm (find_model_names (file.scenes.length + 1) file.scenes root none)
          (i, model)).material = ModelMaterial.sharedSolid := by
        simp only [modelAsset, hvv]
      simp [hm]
    | some iorv =>
      have hm : (modelAsset settings
          (VoxelPalette.new_from_data file settings.diffuse_roughness
            settings.emission_strength).ior_for_voxel
          tm (find_model_names (file.scenes.length + 1) file.scenes root none)
          (i, model)).material = ModelMaterial.translucentClone
            { tm with
              ior := iorv
              thickness := F32.val ((min model.size_x (min model.size_y model.size_z) : ℕ) : ℚ) } := by
        simp only [modelAsset, hvv]
      simp [hm]
  rw [hmat, visible_voxels_ior_isSome]
  constructor
  · rintro ⟨v, hv, h⟩
    exact ⟨v, hv, (lookup_ior_isSome _ _).mp h⟩
  · rintro ⟨v, hv, h⟩
    exact ⟨v, hv, (lookup_ior_isSome _ _).mpr h⟩

/-- A translucent material entry (opacity 0.5, no type tag). -/
def c5TransMaterial : VoxMaterial :=
  { VoxMaterial.default with opacity := some (F32.val (Rat.divInt 1 2)) }

/-- A fully solid 3ˣ3ˣ3 model whose centre voxel (and only it) uses the
translucent palette index 2; the centre voxel is invisible because all
six of its neighbours are solid. -/
def c5Model : VoxModel :=
  { size_x := 3, size_y := 3, size_z := 3
    voxels := (List.range 3).flatMap (fun x =>
      (List.range 3).flatMap (fun y =>
        (List.range 3).map (fun z =>
          ({ x := x, y := y, z := z
             i := if x = 1 ∧ y = 1 ∧ z = 1 then 2 else 1 } : RawVoxel)))) }

/-- Concrete input for the C5 counterexample: palette index 2 is
translucent, and the single model contains it only as its invisible
centre voxel. -/
def c5Data : DotVoxData :=
  { palette := List.replicate 256 ⟨100, 100, 100, 255⟩
    materials := VoxMaterial.default :: VoxMaterial.default :: c5TransMaterial ::
      List.replicate 253 VoxMaterial.default
    models := [c5Model]
    scenes := [SceneNode.transform [] 1, SceneNode.shape [] [⟨0⟩]]
    layers := [] }

/-- Claim C5 exactly as stated, at the counterexample input: the model
is assigned the translucent variant iff it CONTAINS at least one voxel
whose palette index has translucency greater than 0. -/
def c5ClaimStatement : Prop :=
  ∀ (res : LoadResult) (asset : ModelAsset),
    VoxSceneLoader.process_vox_file c5Data VoxLoaderSettings.default = Except.ok res →
    res.models.get? 0 = some asset →
    ((∃ m' : StandardMaterial, asset.material = ModelMaterial.translucentClone m') ↔
      ∃ v ∈ c5Model.voxels, v.i ≠ 0 ∧
        ∃ e : VoxelElement,
          (VoxelPalette.new_from_data c5Data VoxLoaderSettings.default.diffuse_roughness
            VoxLoaderSettings.default.emission_strength).elements.get? v.i = some e ∧
          (e.translucency.gt (F32.val 0)) = true)

theorem c5_counterexample : ¬ c5ClaimStatement := by
  intro hclaim
  have hne : (VoxelPalette.new_from_data c5Data VoxLoaderSettings.default.diffuse_roughness
      VoxLoaderSettings.default.emission_strength).elements ≠ [] := by decide
  have hnn : ∀ e ∈ (VoxelPalette.new_from_data c5Data VoxLoaderSettings.default.diffuse_roughness
      VoxLoaderSettings.default.emission_strength).elements,
      e.emission.isNan = false ∧ e.roughness.isNan = false ∧
      e.metalness.isNan = false ∧ e.translucency.isNan = false := by decide
  obtain ⟨tm, htm, -⟩ := create_material_spec _ hne hnn
  have hok := process_ok c5Data VoxLoaderSettings.default tm
    (SceneNode.transform [] 1) htm rfl
  have hiff := hclaim _ _ hok rfl
  obtain ⟨m', hc⟩ := hiff.mpr
    ⟨⟨1, 1, 1, 2⟩, by decide, by decide,
      deriveElement VoxLoaderSettings.default.diffuse_roughness
        VoxLoaderSettings.default.emission_strength (⟨100, 100, 100, 255⟩, c5TransMaterial),
      new_from_data_get?_pair c5Data VoxLoaderSettings.default.diffuse_roughness
        VoxLoaderSettings.default.emission_strength 2 ⟨100, 100, 100, 255⟩ c5TransMaterial
        (by decide) (by decide) (by decide),
      by decide⟩
  have hc2 : ModelMaterial.sharedSolid = ModelMaterial.translucentClone m' := hc
  exact ModelMaterial.noConfusion hc2

/-- A single-voxel model using translucent palette index 2; with
`mesh_outer_faces = true` its voxel is visible. -/
def c5wModel : VoxModel :=
  { size_x := 1, size_y := 1, size_z := 1, voxels := [⟨0, 0, 0, 2⟩] }

/-- Concrete input for the C5 witness. -/
def c5wData : DotVoxData :=
  { palette := List.replicate 256 ⟨100, 100, 100, 255⟩
    materials := VoxMaterial.default :: VoxMaterial.default :: c5TransMaterial ::
      List.replicate 253 VoxMaterial.default
    models := [c5wModel]
    scenes := [SceneNode.transform [] 1, SceneNode.shape [] [⟨0⟩]]
    layers := [] }

theorem c5_translucent_selection_witness :
    ∃ (res : LoadResult) (asset : ModelAsset),
      VoxSceneLoader.process_vox_file c5wData VoxLoaderSettings.default = Except.ok res ∧
      res.models.get? 0 = some asset ∧
      ((∃ m' : StandardMaterial, asset.material = ModelMaterial.translucentClone m') ↔
        ∃ v ∈ (visible_voxels (load_from_model c5wModel VoxLoaderSettings.default.mesh_outer_faces)
            (VoxelPalette.new_from_data c5wData VoxLoaderSettings.default.diffuse_roughness
              VoxLoaderSettings.default.emission_strength).ior_for_voxel).1,
          ∃ e : VoxelElement,
            (VoxelPalette.new_from_data c5wData VoxLoaderSettings.default.diffuse_roughness
              VoxLoaderSettings.default.emission_strength).elements.get? v.i = some e ∧
            (e.translucency.gt (F32.val 0)) = true) := by
  have hne : (VoxelPalette.new_from_data c5wData VoxLoaderSettings.default.diffuse_roughness
      VoxLoaderSettings.default.emission_strength).elements ≠ [] := by decide
  have hnn : ∀ e ∈ (VoxelPalette.new_from_data c5wData VoxLoaderSettings.default.diffuse_roughness
      VoxLoaderSettings.default.emission_strength).elements,
      e.emission.isNan = false ∧ e.roughness.isNan = false ∧
      e.metalness.isNan = false ∧ e.translucency.isNan = false := by decide
  obtain ⟨tm, htm, -⟩ := create_material_spec _ hne hnn
  have hok := process_ok c5wData VoxLoaderSettings.default tm
    (SceneNode.transform [] 1) htm rfl
  exact ⟨_, _, hok, rfl,
    c5_translucent_selection c5wData VoxLoaderSettings.default _ 0 _ c5wModel hok rfl rfl⟩

lemma foldl_no_models (l : List NamedModel) :
    l.foldl (fun acc nm =>
      match ([] : List VoxModel).get? nm.id with
      | none => acc
      | some _ => if nm.id = 0 then some ({ modelId := nm.id } : Mesh) else acc)
      (none : Option Mesh) = none := by
  induction l with
  | nil => rfl
  | cons nm l ih => exact ih

/-- Claim C7 (amended): on a file with zero models, the legacy mesh
loader (`VoxLoader`) fails — on every path it returns an error, ending
in "No models found in vox file" — while the scene loader
(`VoxSceneLoader`) succeeds and returns a scene whose model list is
empty. -/
theorem c7_zero_models (file : DotVoxData) (hmods : file.models = []) :
    (∃ msg : String, VoxLoader.process_vox_file file = Except.error msg) ∧
    (∀ (settings : VoxLoaderSettings) (tm : StandardMaterial) (root : SceneNode),
      (VoxelPalette.new_from_data file settings.diffuse_roughness
        settings.emission_strength)._create_material = Except.ok tm →
      file.scenes.get? 0 = some root →
      ∃ res : LoadResult,
        VoxSceneLoader.process_vox_file file settings = Except.ok res ∧
        res.models = []) := by
  constructor
  · cases h1 : max_element (file.materials.map (fun m => m.roughness.getD (F32.val 0))) with
    | error msg =>
      refine ⟨msg, ?_⟩
      unfold VoxLoader.process_vox_file
      simp only [h1, except_bind_error]
    | ok v1 =>
      cases h2 : min_element (file.materials.map (fun m => m.roughness.getD (F32.val 0))) with
      | error msg =>
        refine ⟨msg, ?_⟩
        unfold VoxLoader.process_vox_file
        simp only [h1, h2, except_bind_ok, except_bind_error]
      | ok v2 =>
        cases h3 : max_element (file.materials.map (fun m => m.metalness.getD (F32.val 0))) with
        | error msg =>
          refine ⟨msg, ?_⟩
          unfold VoxLoader.process_vox_file
          simp only [h1, h2, h3, except_bind_ok, except_bind_error]
        | ok v3 =>
          cases h4 : min_element (file.materials.map (fun m => m.metalness.getD (F32.val 0))) with
          | error msg =>
            refine ⟨msg, ?_⟩
            unfold VoxLoader.process_vox_file
            simp only [h1, h2, h3, h4, except_bind_ok, except_bind_error]
          | ok v4 =>
            cases h5 : file.scenes.get? 0 with
            | none =>
              refine ⟨"index out of bounds", ?_⟩
              unfold VoxLoader.process_vox_file
              simp only [h1, h2, h3, h4, h5, except_bind_ok, except_bind_error]
            | some root =>
              cases h6 : parse_scene_graph (file.scenes.length + 1) file.scenes root none with
              | none =>
                refine ⟨"index out of bounds", ?_⟩
                unfold VoxLoader.process_vox_file
                simp only [h1, h2, h3, h4, h5, h6, except_bind_ok, except_bind_error]
              | some l =>
                refine ⟨"No models found in vox file", ?_⟩
                unfold VoxLoader.process_vox_file
                simp only [h1, h2, h3, h4, h5, h6, except_bind_ok, except_bind_error, hmods]
                rw [foldl_no_models l]
  · intro settings tm root htm hroot
    refine ⟨_, process_ok file settings tm root htm hroot, ?_⟩
    show (file.models.enum.map _) = []
    rw [hmods]
    rfl

/-- Concrete zero-model input for C7: decodes to a document with a
valid scene graph, full default material table and no models. -/
def c7Data : DotVoxData :=
  { palette := List.replicate 256 ⟨0, 0, 0, 255⟩
    materials := List.replicate 256 VoxMaterial.default
    models := []
    scenes := [SceneNode.transform [] 1, SceneNode.shape [] []]
    layers := [] }

/-- Claim C7 exactly as stated, at the concrete input: a zero-model
file makes the load return an error rather than produce an asset. -/
def c7ClaimStatement : Prop :=
  ∀ res : LoadResult,
    VoxSceneLoader.process_vox_file c7Data VoxLoaderSettings.default ≠ Except.ok res

theorem c7_counterexample : ¬ c7ClaimStatement := by
  intro hclaim
  have hne : (VoxelPalette.new_from_data c7Data VoxLoaderSettings.default.diffuse_roughness
      VoxLoaderSettings.default.emission_strength).elements ≠ [] := by decide
  have hnn : ∀ e ∈ (VoxelPalette.new_from_data c7Data VoxLoaderSettings.default.diffuse_roughness
      VoxLoaderSettings.default.emission_strength).elements,
      e.emission.isNan = false ∧ e.roughness.isNan = false ∧
      e.metalness.isNan = false ∧ e.translucency.isNan = false := by decide
  obtain ⟨tm, htm, -⟩ := create_material_spec _ hne hnn
  exact hclaim _ (process_ok c7Data VoxLoaderSettings.default tm
    (SceneNode.transform [] 1) htm rfl)

theorem c7_zero_models_witness :
    (∃ msg : String, VoxLoader.process_vox_file c7Data = Except.error msg) ∧
    (∃ res : LoadResult,
      VoxSceneLoader.process_vox_file c7Data VoxLoaderSettings.default = Except.ok res ∧
      res.models = []) := by
  have h := c7_zero_models c7Data rfl
  have hne : (VoxelPalette.new_from_data c7Data VoxLoaderSettings.default.diffuse_roughness
      VoxLoaderSettings.default.emission_strength).elements ≠ [] := by decide
  have hnn : ∀ e ∈ (VoxelPalette.new_from_data c7Data VoxLoaderSettings.default.diffuse_roughness
      VoxLoaderSettings.default.emission_strength).elements,
      e.emission.isNan = false ∧ e.roughness.isNan = false ∧
      e.metalness.isNan = false ∧ e.translucency.isNan = false := by decide
  obtain ⟨tm, htm, -⟩ := create_material_spec _ hne hnn
  exact ⟨h.1, h.2 VoxLoaderSettings.default tm (SceneNode.transform [] 1) htm rfl⟩
